import Mathlib

/-!
Shallow embedding of the best-price-tracker Flask application (src/app.py):
the Game/Wishlist data model, the Steam price-lookup client
(get_steam_price_by_name, fetch_price_data) and the request handlers
(search, add_to_wishlist, delete_from_wishlist, update_wishlist_item).

Machine conventions of the embedding:
* the database is an explicit `DB` value (list of Game rows, list of
  Wishlist rows, plus the next surrogate ids the store would assign);
* prices are rationals (CPython floats at these magnitudes behave like
  exact decimals for the operations the code performs: division of a
  small integer by 100, comparison, storage);
* the network is an explicit environment (`LookupEnv`): the outcome of the
  storefront search call and, per app id, the outcome of the details call;
* logging is explicit: the lookup client returns the list of log events it
  would emit;
* handlers that can raise an uncaught AttributeError (a wishlist row whose
  game_id matches no Game row, impossible for rows the app itself created)
  return `Option`, `none` standing for that crash;
* Python str.lower is modelled per character with Char.toLower, and
  str.split() with whitespace splitting that may produce empty pieces --
  empty pieces are ignored by every consumer exactly as in the code.
-/

namespace BestPrice

/-! ### Data model (src/app.py lines 37-55) -/

/-- A row of the Game table: id (primary key), name (unique), steam_id,
price. The code stores steam_id as a string column but always writes and
queries it with the integer app id, so it is a Nat here. -/
structure Game where
  id : Nat
  name : String
  steam_id : Nat
  price : ℚ
deriving Repr, DecidableEq

/-- A row of the Wishlist table: id (primary key), game_id (foreign key to
Game), optional target_price. -/
structure WishlistEntry where
  id : Nat
  game_id : Nat
  target_price : Option ℚ
deriving Repr, DecidableEq

/-- The persistent store: the two tables plus the next surrogate ids the
database would assign on insert. -/
structure DB where
  games : List Game
  wishlist : List WishlistEntry
  nextGameId : Nat
  nextWishlistId : Nat
deriving Repr, DecidableEq

/-! ### Flash notices (flask.flash categories used by the handlers) -/

inductive FlashCategory where
  | success
  | danger
deriving Repr, DecidableEq

/-- The flash notices the wishlist handlers emit, by identity: which message
and which data it names (the literal text is fixed by src/app.py lines
178, 180, 218, 228, 231). -/
inductive Flash where
  | removedFromWishlist (game_name : String)
  | wishlistItemNotFound
  | invalidFormSubmission
  | updatedTargetPrice (game_name : String) (price : ℚ)
deriving Repr, DecidableEq

/-- The category string each flash call passes (success or danger). -/
def Flash.category : Flash → FlashCategory
  | .removedFromWishlist _ => .success
  | .wishlistItemNotFound => .danger
  | .invalidFormSubmission => .danger
  | .updatedTargetPrice _ _ => .success

/-! ### String helpers for the name matching the code performs -/

/-- needle `isPrefixOf` hay over char lists, written out so the kernel can
evaluate it. -/
def prefixCheck : List Char → List Char → Bool
  | [], _ => true
  | _ :: _, [] => false
  | a :: as, b :: bs => a == b && prefixCheck as bs

/-- Python `needle in hay` (substring containment) over char lists. -/
def containsSub (hay needle : List Char) : Bool :=
  match hay with
  | [] => needle.isEmpty
  | _ :: t => prefixCheck needle hay || containsSub t needle

/-- Python str.lower, per character. -/
def lowerChars (s : String) : List Char := s.toList.map Char.toLower

/-- SQL `name ILIKE %q%`: case-insensitive substring match (src/app.py
line 108). -/
def ilikeSub (hay q : String) : Bool := containsSub (lowerChars hay) (lowerChars q)

/-! ### Price Lookup Client (src/app.py lines 62-95) -/

/-- One item of the storefront search response: a display name and the
integer app id. -/
structure SearchItem where
  name : String
  id : Nat
deriving Repr, DecidableEq

/-- The price_overview object of a details response; final is the price in
integer minor units (cents). -/
structure PriceOverview where
  final : Nat
deriving Repr, DecidableEq

/-- Outcome of one details call: a transport-level failure (raises
requests.RequestException in the code) or a response whose data may or may
not carry a price_overview. -/
inductive DetailsOutcome where
  | transportFailure
  | success (data : Option PriceOverview)
deriving Repr, DecidableEq

/-- Outcome of the storefront search call: transport-level failure (timeout,
non-2xx, malformed body) or a list of items. -/
inductive SearchOutcome where
  | transportFailure
  | success (items : List SearchItem)
deriving Repr, DecidableEq

/-- The network environment one request sees. -/
structure LookupEnv where
  searchOutcome : SearchOutcome
  details : Nat → DetailsOutcome

/-- The error log lines the lookup client can emit (src/app.py lines 83
and 94). -/
inductive LogEvent where
  | apiRequestError (query : String)
  | priceFetchError (app_id : Nat)
deriving Repr, DecidableEq

/-- The candidate filter of src/app.py line 72:
`all(word in game['name'].lower() for word in game_name.lower().split() if len(word) > 2)`.
Words are the whitespace-separated pieces of the lower-cased query; only
words longer than 2 characters are tested for substring membership in the
lower-cased item name. -/
def keepCandidate (game_name item_name : String) : Bool :=
  (((lowerChars game_name).splitOnP Char.isWhitespace).filter
      (fun w => 2 < w.length)).all
    (fun w => containsSub (lowerChars item_name) w)

/-- fetch_price_data (src/app.py lines 86-95): on transport failure it logs
the app id and yields no data; otherwise it yields
`data.get('price_overview')` (possibly absent) and logs nothing. -/
def fetch_price_data (details : Nat → DetailsOutcome) (app_id : Nat) :
    Option PriceOverview × List LogEvent :=
  match details app_id with
  | .transportFailure => (none, [.priceFetchError app_id])
  | .success data => (data, [])

/-- Price normalization of src/app.py line 79:
`price_data['final'] / 100 if price_data['final'] else 0.0`. -/
def normalizePrice (final : Nat) : ℚ :=
  if final = 0 then 0 else (final : ℚ) / 100

/-- A normalized lookup result: {name, appid, price} (src/app.py
lines 76-80). -/
structure SteamGame where
  name : String
  appid : Nat
  price : ℚ
deriving Repr, DecidableEq

/-- The loop body of get_steam_price_by_name over the search items
(src/app.py lines 71-80): keep items passing the word filter, fetch each
one's price data, drop items without price data, collect log events. -/
def processItems (details : Nat → DetailsOutcome) (game_name : String) :
    List SearchItem → List SteamGame × List LogEvent
  | [] => ([], [])
  | item :: rest =>
    if keepCandidate game_name item.name then
      match fetch_price_data details item.id with
      | (some pd, logs) =>
          (⟨item.name, item.id, normalizePrice pd.final⟩
              :: (processItems details game_name rest).1,
            logs ++ (processItems details game_name rest).2)
      | (none, logs) =>
          ((processItems details game_name rest).1,
            logs ++ (processItems details game_name rest).2)
    else processItems details game_name rest

/-- get_steam_price_by_name (src/app.py lines 62-84): on a transport failure
of the search call, log the error with the original query and return the
empty list; otherwise process the returned items. -/
def get_steam_price_by_name (env : LookupEnv) (game_name : String) :
    List SteamGame × List LogEvent :=
  match env.searchOutcome with
  | .transportFailure => ([], [.apiRequestError game_name])
  | .success items => processItems env.details game_name items

/-! ### Game repository operations used by the search handler -/

/-- `Game.query.filter(Game.name.ilike(f"%{game_name}%")).all()`
(src/app.py line 108). -/
def findByName (db : DB) (game_name : String) : List Game :=
  db.games.filter (fun g => ilikeSub g.name game_name)

/-- `Game.query.filter_by(steam_id=...).first()` (src/app.py lines 118
and 136). -/
def findBySteamId (db : DB) (sid : Nat) : Option Game :=
  db.games.find? (fun g => g.steam_id == sid)

/-- `Game.query.get(game_id)`: primary-key lookup. -/
def getGame (db : DB) (game_id : Nat) : Option Game :=
  db.games.find? (fun g => g.id == game_id)

/-- `Wishlist.query.get(wishlist_id)`: primary-key lookup. -/
def getWishlistEntry (db : DB) (wishlist_id : Nat) : Option WishlistEntry :=
  db.wishlist.find? (fun w => w.id == wishlist_id)

/-- `existing_game.price = p; commit()`: set the price of the row with the
given primary key. -/
def setPriceById (games : List Game) (gid : Nat) (p : ℚ) : List Game :=
  games.map (fun g => if g.id == gid then { g with price := p } else g)

/-- The projection of a Game row that the search refresh loop never touches:
id, name and steam_id. -/
def gameKey (g : Game) : Nat × String × Nat := (g.id, g.name, g.steam_id)

/-! ### Search handler (src/app.py lines 102-148) -/

/-- One iteration of the refresh loop in the branch where step 1 found local
rows (src/app.py lines 117-122): if a row with this steam_id exists, update
its price; otherwise do nothing (there is no insert in this branch). -/
def updateExistingPrice (db : DB) (sg : SteamGame) : DB :=
  match findBySteamId db sg.appid with
  | some existing_game =>
      { db with games := setPriceById db.games existing_game.id sg.price }
  | none => db

/-- The whole refresh loop of the found branch. -/
def refreshPrices (db : DB) (sgs : List SteamGame) : DB :=
  sgs.foldl updateExistingPrice db

/-- One iteration of the loop in the branch where step 1 found nothing
(src/app.py lines 135-143): update the price of an existing row with this
steam_id, or insert a new row and remember it in new_games. The Game.name
column carries a UNIQUE constraint (src/app.py line 39): inserting a row
whose name equals the name of any row already in the table (committed, or
pending from an earlier iteration and visible through autoflush) makes the
flush or the commit at line 144 raise an IntegrityError that no handler
catches; none models that failure. The accumulator carries the store and
the ids of the rows inserted so far. -/
def upsertStep (acc : DB × List Nat) (sg : SteamGame) : Option (DB × List Nat) :=
  match findBySteamId acc.1 sg.appid with
  | some existing_game =>
      some ({ acc.1 with games := setPriceById acc.1.games existing_game.id sg.price },
        acc.2)
  | none =>
      if acc.1.games.any (fun g => g.name == sg.name) then
        none
      else
        some ({ acc.1 with
            games := acc.1.games ++ [⟨acc.1.nextGameId, sg.name, sg.appid, sg.price⟩],
            nextGameId := acc.1.nextGameId + 1 },
          acc.2 ++ [acc.1.nextGameId])

/-- The whole loop of the empty branch over the accumulator: the first
IntegrityError aborts the request, so a failing step makes the whole loop
fail. -/
def upsertLoop (acc : DB × List Nat) : List SteamGame → Option (DB × List Nat)
  | [] => some acc
  | sg :: rest =>
    match upsertStep acc sg with
    | some acc2 => upsertLoop acc2 rest
    | none => none

/-- The whole loop of the empty branch, returning the updated store and the
ids of the inserted rows (new_games), or none when a unique-name violation
raised IntegrityError. -/
def upsertAll (db : DB) (sgs : List SteamGame) : Option (DB × List Nat) :=
  upsertLoop (db, []) sgs

/-- What the search handler renders: the updated store and the ids of the
Game rows passed to the template. -/
structure SearchRender where
  db : DB
  shownIds : List Nat
deriving Repr, DecidableEq

/-- The search handler (src/app.py lines 102-148). If the local query found
rows, run the refresh loop (updates only, committed per iteration at line
122, no insert, so no constraint can fire) and render the step-1 rows; if
it found nothing, run the upsert loop when the lookup returned items and
render the newly inserted rows, or render the empty list when the lookup
returned nothing. In the empty branch the single commit sits at line 144
after the loop, so an IntegrityError from a duplicate name propagates out
of the handler unhandled: no response is rendered and nothing persists —
modelled as none. -/
def search (env : LookupEnv) (db : DB) (game_name : String) : Option SearchRender :=
  let games := findByName db game_name
  if games.isEmpty then
    let steam_games := (get_steam_price_by_name env game_name).1
    if steam_games.isEmpty then some ⟨db, []⟩
    else
      match upsertAll db steam_games with
      | some r => some ⟨r.1, r.2⟩
      | none => none
  else
    let steam_games := (get_steam_price_by_name env game_name).1
    some ⟨refreshPrices db steam_games, games.map Game.id⟩

/-! ### Wishlist handlers (src/app.py lines 150-233) -/

/-- add_to_wishlist (src/app.py lines 150-169): look up the game by primary
key; if absent, no-op; if a wishlist entry for that game_id already exists,
no-op; otherwise insert a new entry with the submitted target price. The
handler always redirects to the wishlist view, so its observable effect is
the new store. -/
def add_to_wishlist (db : DB) (game_id : Nat) (target_price : Option ℚ) : DB :=
  match getGame db game_id with
  | some game =>
    match db.wishlist.find? (fun w => w.game_id == game.id) with
    | some _ => db
    | none =>
      { db with
          wishlist := db.wishlist ++ [⟨db.nextWishlistId, game.id, target_price⟩],
          nextWishlistId := db.nextWishlistId + 1 }
  | none => db

/-- The observable outcome of a wishlist mutation handler: the new store and
the flash notice it queued (all three handlers then redirect to the
wishlist view). -/
structure HandlerResult where
  db : DB
  flash : Option Flash
deriving Repr, DecidableEq

/-- delete_from_wishlist (src/app.py lines 171-181): look the entry up by
primary key; if absent, flash a danger notice; if present, read
item.game.name (none models the AttributeError when the referenced game is
missing), delete the row and flash a success notice naming the game. -/
def delete_from_wishlist (db : DB) (wishlist_id : Nat) : Option HandlerResult :=
  match getWishlistEntry db wishlist_id with
  | some item =>
    match getGame db item.game_id with
    | some game =>
        some ⟨{ db with wishlist := db.wishlist.filter (fun w => !(w.id == wishlist_id)) },
          some (.removedFromWishlist game.name)⟩
    | none => none
  | none => some ⟨db, some .wishlistItemNotFound⟩

/-- update_wishlist_item (src/app.py lines 205-233). The form fields arrive
as `Option Int` (wishlist_id, None when missing or unparseable as int) and
`Option ℚ` (target_price, None when missing or unparseable as float). The
guard `if not wishlist_id or new_target_price is None` rejects a missing or
unparseable field and also a wishlist_id equal to 0, 0 being falsy in
Python; the two match arms below compile exactly that control flow. On a
valid submission the entry is fetched by primary key; if absent, a danger
notice; if present, its target_price is set and a success notice names the
game (none models the AttributeError when the referenced game is
missing). -/
def update_wishlist_item (db : DB) (wishlist_id : Option Int)
    (new_target_price : Option ℚ) : Option HandlerResult :=
  match wishlist_id, new_target_price with
  | some wid, some p =>
    if wid == 0 then some ⟨db, some .invalidFormSubmission⟩
    else
      match db.wishlist.find? (fun w => (w.id : Int) == wid) with
      | some item =>
        match getGame db item.game_id with
        | some game =>
            let updated := db.wishlist.map
              (fun w => if w.id == item.id then { w with target_price := some p } else w)
            some ⟨{ db with wishlist := updated }, some (.updatedTargetPrice game.name p)⟩
        | none => none
      | none => some ⟨db, some .wishlistItemNotFound⟩
  | _, _ => some ⟨db, some .invalidFormSubmission⟩

/-! ### Concrete inputs used by counterexamples and witnesses -/

/-- A store holding one Game row: Portal, steam_id 400, price 9.99. -/
def dbPortal : DB :=
  ⟨[⟨1, "Portal", 400, 999/100⟩], [], 2, 1⟩

/-- A network where the search succeeds with one item, Portal 2 (app id
620), and every details call returns price_overview with final = 1999. -/
def envPortal2 : LookupEnv :=
  ⟨.success [⟨"Portal 2", 620⟩], fun _ => .success (some ⟨1999⟩)⟩

/-- A network where the storefront search call fails at transport level. -/
def envDown : LookupEnv :=
  ⟨.transportFailure, fun _ => .transportFailure⟩

/-- A details environment for the per-item failure witness: app id 620
fails at transport level, app id 400 has no price data, everything else
returns final = 1999. -/
def detailsMixed : Nat → DetailsOutcome :=
  fun n =>
    if n == 620 then .transportFailure
    else if n == 400 then .success none
    else .success (some ⟨1999⟩)

/-- A store holding one Game row named Half-Life 2 with steam_id 220:
a name-substring search for Half Life misses it, but inserting a lookup
item of the same name under another app id violates the unique-name
constraint. -/
def dbHalfLife : DB :=
  ⟨[⟨1, "Half-Life 2", 220, 10⟩], [], 2, 1⟩

/-- A network whose search succeeds with one item named Half-Life 2 under
app id 999 and whose details calls all return price data. -/
def envHalfLife : LookupEnv :=
  ⟨.success [⟨"Half-Life 2", 999⟩], fun _ => .success (some ⟨1999⟩)⟩

/-- A store holding one Game row (id 7) and no wishlist rows. -/
def dbOneGame : DB :=
  ⟨[⟨7, "Portal", 400, 999/100⟩], [], 8, 1⟩

/-- A store holding one Game row (id 7) and one wishlist row (id 3)
referencing it. -/
def dbOneWish : DB :=
  ⟨[⟨7, "Portal", 400, 999/100⟩], [⟨3, 7, some 5⟩], 8, 4⟩

/-! ### Helper lemmas -/

theorem setPriceById_map_gameKey (gs : List Game) (gid : Nat) (p : ℚ) :
    (setPriceById gs gid p).map gameKey = gs.map gameKey := by
  simp only [setPriceById, List.map_map]
  refine List.map_congr_left ?_
  intro g _
  by_cases h : g.id == gid <;> simp [Function.comp, h, gameKey]

theorem setPriceById_map_id (gs : List Game) (gid : Nat) (p : ℚ) :
    (setPriceById gs gid p).map Game.id = gs.map Game.id := by
  simp only [setPriceById, List.map_map]
  refine List.map_congr_left ?_
  intro g _
  by_cases h : g.id == gid <;> simp [Function.comp, h]

theorem updateExistingPrice_map_gameKey (db : DB) (sg : SteamGame) :
    (updateExistingPrice db sg).games.map gameKey = db.games.map gameKey := by
  rcases h : findBySteamId db sg.appid with _ | g <;>
    simp [updateExistingPrice, h, setPriceById_map_gameKey]

theorem refreshPrices_map_gameKey (sgs : List SteamGame) (db : DB) :
    (refreshPrices db sgs).games.map gameKey = db.games.map gameKey := by
  induction sgs generalizing db with
  | nil => rfl
  | cons sg t ih =>
    simp only [refreshPrices, List.foldl_cons] at *
    rw [ih, updateExistingPrice_map_gameKey]

theorem processItems_append (details : Nat → DetailsOutcome) (q : String)
    (l₁ l₂ : List SearchItem) :
    processItems details q (l₁ ++ l₂)
      = ((processItems details q l₁).1 ++ (processItems details q l₂).1,
         (processItems details q l₁).2 ++ (processItems details q l₂).2) := by
  induction l₁ with
  | nil => simp [processItems]
  | cons a t ih =>
    by_cases hk : keepCandidate q a.name
    · rcases hf : fetch_price_data details a.id with ⟨o, logs⟩
      cases o <;> simp [processItems, hk, hf, ih]
    · simp [processItems, hk, ih]

theorem upsertStep_matched (acc : DB × List Nat) (sg : SteamGame) (g : Game)
    (h : findBySteamId acc.1 sg.appid = some g) :
    upsertStep acc sg
      = some ({ acc.1 with games := setPriceById acc.1.games g.id sg.price },
          acc.2) := by
  simp [upsertStep, h]

theorem upsertStep_unmatched (acc : DB × List Nat) (sg : SteamGame)
    (h : findBySteamId acc.1 sg.appid = none)
    (hname : acc.1.games.any (fun g => g.name == sg.name) = false) :
    upsertStep acc sg
      = some ({ acc.1 with
            games := acc.1.games ++ [⟨acc.1.nextGameId, sg.name, sg.appid, sg.price⟩],
            nextGameId := acc.1.nextGameId + 1 },
          acc.2 ++ [acc.1.nextGameId]) := by
  simp [upsertStep, h, hname]

theorem upsertStep_name_collision (acc : DB × List Nat) (sg : SteamGame)
    (h : findBySteamId acc.1 sg.appid = none)
    (hname : acc.1.games.any (fun g => g.name == sg.name) = true) :
    upsertStep acc sg = none := by
  simp [upsertStep, h, hname]

theorem upsertLoop_ids (sgs : List SteamGame) (acc res : DB × List Nat)
    (h : upsertLoop acc sgs = some res) :
    ∃ newIds,
      res.1.games.map Game.id = acc.1.games.map Game.id ++ newIds
      ∧ res.2 = acc.2 ++ newIds := by
  induction sgs generalizing acc with
  | nil =>
    simp only [upsertLoop, Option.some.injEq] at h
    exact ⟨[], by simp [← h]⟩
  | cons sg t ih =>
    simp only [upsertLoop] at h
    rcases hf : findBySteamId acc.1 sg.appid with _ | g
    · cases hname : acc.1.games.any (fun g => g.name == sg.name) with
      | true =>
        rw [upsertStep_name_collision acc sg hf hname] at h
        cases h
      | false =>
        rw [upsertStep_unmatched acc sg hf hname] at h
        simp only at h
        obtain ⟨n, h1, h2⟩ := ih _ h
        refine ⟨acc.1.nextGameId :: n, ?_, ?_⟩
        · rw [h1]; simp
        · rw [h2]; simp
    · rw [upsertStep_matched acc sg g hf] at h
      simp only at h
      obtain ⟨n, h1, h2⟩ := ih _ h
      refine ⟨n, ?_, h2⟩
      rw [h1]
      simp [setPriceById_map_id]

theorem search_found (env : LookupEnv) (db : DB) (q : String)
    (h : findByName db q ≠ []) :
    search env db q
      = some ⟨refreshPrices db (get_steam_price_by_name env q).1,
          (findByName db q).map Game.id⟩ := by
  have he : (findByName db q).isEmpty = false := List.isEmpty_eq_false.mpr h
  simp [search, he]

theorem search_empty_none (env : LookupEnv) (db : DB) (q : String)
    (h1 : findByName db q = []) (h2 : (get_steam_price_by_name env q).1 = []) :
    search env db q = some ⟨db, []⟩ := by
  simp [search, h1, h2]

theorem search_empty_some (env : LookupEnv) (db : DB) (q : String)
    (r : DB × List Nat) (h1 : findByName db q = [])
    (hr : upsertAll db (get_steam_price_by_name env q).1 = some r) :
    search env db q = some ⟨r.1, r.2⟩ := by
  by_cases h2 : (get_steam_price_by_name env q).1 = []
  · rw [h2] at hr
    simp only [upsertAll, upsertLoop, Option.some.injEq] at hr
    rw [search_empty_none env db q h1 h2, ← hr]
  · have he : ((get_steam_price_by_name env q).1).isEmpty = false :=
      List.isEmpty_eq_false.mpr h2
    simp [search, h1, he, hr]

theorem search_empty_crash (env : LookupEnv) (db : DB) (q : String)
    (h1 : findByName db q = [])
    (hr : upsertAll db (get_steam_price_by_name env q).1 = none) :
    search env db q = none := by
  have h2 : (get_steam_price_by_name env q).1 ≠ [] := by
    intro he
    rw [he] at hr
    simp [upsertAll, upsertLoop] at hr
  have he : ((get_steam_price_by_name env q).1).isEmpty = false :=
    List.isEmpty_eq_false.mpr h2
  simp [search, h1, he, hr]

theorem getGame_id {db : DB} {gid : Nat} {g : Game}
    (h : getGame db gid = some g) : g.id = gid := by
  simpa using List.find?_some h

theorem add_to_wishlist_games (db : DB) (gid : Nat) (tp : Option ℚ) :
    (add_to_wishlist db gid tp).games = db.games := by
  rcases h : getGame db gid with _ | g
  · simp [add_to_wishlist, h]
  · rcases h2 : db.wishlist.find? (fun w => w.game_id == g.id) with _ | e <;>
      simp [add_to_wishlist, h, h2]

theorem add_to_wishlist_idem (db : DB) (gid : Nat) (tp1 tp2 : Option ℚ) :
    add_to_wishlist (add_to_wishlist db gid tp1) gid tp2
      = add_to_wishlist db gid tp1 := by
  rcases h : getGame db gid with _ | g
  · have h1 : add_to_wishlist db gid tp1 = db := by simp [add_to_wishlist, h]
    rw [h1]
    simp [add_to_wishlist, h]
  · rcases h2 : db.wishlist.find? (fun w => w.game_id == g.id) with _ | e
    · have h1 : add_to_wishlist db gid tp1
          = { db with
                wishlist := db.wishlist ++ [⟨db.nextWishlistId, g.id, tp1⟩],
                nextWishlistId := db.nextWishlistId + 1 } := by
        simp [add_to_wishlist, h, h2]
      have hg : getGame { db with
          wishlist := db.wishlist ++ [⟨db.nextWishlistId, g.id, tp1⟩],
          nextWishlistId := db.nextWishlistId + 1 } gid = some g := h
      have hf : (db.wishlist ++ [(⟨db.nextWishlistId, g.id, tp1⟩ : WishlistEntry)]).find?
            (fun w => w.game_id == g.id)
          = some ⟨db.nextWishlistId, g.id, tp1⟩ := by
        rw [List.find?_append, h2]
        simp
      rw [h1]
      simp [add_to_wishlist, hg, hf]
    · have h1 : add_to_wishlist db gid tp1 = db := by simp [add_to_wishlist, h, h2]
      rw [h1]
      simp [add_to_wishlist, h, h2]

theorem add_to_wishlist_count_one (db : DB) (gid : Nat) (tp : Option ℚ) (g : Game)
    (h : getGame db gid = some g)
    (hc : db.wishlist.countP (fun w => w.game_id == gid) ≤ 1) :
    (add_to_wishlist db gid tp).wishlist.countP (fun w => w.game_id == gid) = 1 := by
  have hid : g.id = gid := getGame_id h
  rcases h2 : db.wishlist.find? (fun w => w.game_id == g.id) with _ | e
  · rw [hid] at h2
    have hz : db.wishlist.countP (fun w => w.game_id == gid) = 0 := by
      rw [List.countP_eq_zero]
      exact List.find?_eq_none.mp h2
    simp [add_to_wishlist, h, hid, h2, List.countP_append, hz]
  · have h1 : add_to_wishlist db gid tp = db := by simp [add_to_wishlist, h, h2]
    have hpos : 0 < db.wishlist.countP (fun w => w.game_id == gid) := by
      rw [List.countP_pos_iff]
      refine ⟨e, List.mem_of_find?_eq_some h2, ?_⟩
      have := List.find?_some h2
      rw [hid] at this
      exact this
    rw [h1]
    omega

theorem filter_id_of_nodup (l : List WishlistEntry) (item : WishlistEntry)
    (hn : (l.map WishlistEntry.id).Nodup) (hm : item ∈ l) :
    l.filter (fun w => w.id == item.id) = [item] := by
  induction l with
  | nil => cases hm
  | cons a t ih =>
    rw [List.map_cons, List.nodup_cons] at hn
    obtain ⟨ha, ht⟩ := hn
    rcases List.mem_cons.mp hm with rfl | hmt
    · have hnil : t.filter (fun w => w.id == item.id) = [] := by
        rw [List.filter_eq_nil_iff]
        intro w hw
        simp only [beq_iff_eq]
        intro hww
        exact ha (hww ▸ List.mem_map_of_mem WishlistEntry.id hw)
      simp [List.filter_cons, hnil]
    · have hae : (a.id == item.id) = false := by
        refine beq_eq_false_iff_ne.mpr ?_
        intro he
        exact ha (he ▸ List.mem_map_of_mem WishlistEntry.id hmt)
      rw [List.filter_cons, hae]
      simp only [Bool.false_eq_true, if_false]
      exact ih ht hmt

/-! ### Claim theorems -/

/-- C3: the lookup client keeps a candidate if and only if every
whitespace-separated word of the lower-cased query whose length exceeds 2
occurs as a substring of the lower-cased item name; words of length 1 or 2
never exclude a candidate. The closing conjuncts check the documented
example (the query Half Life matches the name Half-Life 2, and appending a
2-character word absent from the name still matches). -/
theorem claim_C3_word_filter :
    (∀ q n : String,
      (keepCandidate q n = true ↔
        ∀ w ∈ (lowerChars q).splitOnP Char.isWhitespace,
          2 < w.length → containsSub (lowerChars n) w = true))
    ∧ keepCandidate "Half Life" "Half-Life 2" = true
    ∧ keepCandidate "Half Life xq" "Half-Life 2" = true
    ∧ containsSub (lowerChars "Half-Life 2") (lowerChars "xq") = false := by
  refine ⟨fun q n => ?_, by decide, by decide, by decide⟩
  simp [keepCandidate, List.all_eq_true, List.mem_filter]
  constructor
  · intro h w hw hlen
    rcases h w hw with h1 | h2
    · omega
    · exact h2
  · intro h w hw
    by_cases hlen : 2 < w.length
    · exact Or.inr (h w hw hlen)
    · exact Or.inl (by omega)

/-- C4: for a candidate whose details call succeeds with price data, the
normalized price is the upstream minor-unit integer divided by 100 (1999
gives 19.99), and a falsy (zero) upstream price gives exactly 0. -/
theorem claim_C4_price_normalization :
    (∀ final : Nat, normalizePrice final = (final : ℚ) / 100)
    ∧ normalizePrice 1999 = 19.99
    ∧ normalizePrice 0 = 0
    ∧ (∀ (details : Nat → DetailsOutcome) (q : String) (item : SearchItem)
        (pd : PriceOverview),
        keepCandidate q item.name = true →
        details item.id = .success (some pd) →
          (processItems details q [item]).1
            = [⟨item.name, item.id, normalizePrice pd.final⟩]) := by
  refine ⟨?_, by norm_num [normalizePrice], rfl, ?_⟩
  · intro f
    unfold normalizePrice
    split
    · simp_all
    · rfl
  · intro details q item pd hk hd
    simp [processItems, hk, fetch_price_data, hd]

/-- C9: an update-wishlist-item request whose target_price field is missing
or unparseable (modelled as none) produces the invalid-submission danger
notice, leaves the store untouched, and in particular leaves every stored
target_price unchanged. -/
theorem claim_C9_update_missing_price :
    ∀ (db : DB) (wid : Option Int),
      update_wishlist_item db wid none
        = some ⟨db, some .invalidFormSubmission⟩
      ∧ Flash.category .invalidFormSubmission = .danger := by
  intro db wid
  refine ⟨?_, rfl⟩
  cases wid <;> rfl

/-- C10: a submitted wishlist_id parsing to the integer 0 is rejected as an
invalid submission even alongside a perfectly valid target_price, because
the guard tests Python truthiness of wishlist_id and 0 is falsy; the store
is untouched. -/
theorem claim_C10_zero_wishlist_id :
    ∀ (db : DB) (p : ℚ),
      update_wishlist_item db (some 0) (some p)
        = some ⟨db, some .invalidFormSubmission⟩ := by
  intro db p
  rfl

/-- C1 counterexample: with one Game row (id 1, Portal, steam_id 400) and a
lookup returning one item named Portal 2 with external id 620, the step-1
query finds the Portal row, the client returns the 620 item, no row with
steam_id 620 exists, and yet after the search the Game table still has
exactly its original row: the claimed insert does not happen in the branch
where step 1 found local rows. -/
theorem claim_C1_counterexample :
    (findByName dbPortal "Portal").map Game.id = [1]
    ∧ ((get_steam_price_by_name envPortal2 "Portal").1).map
        (fun sg => (sg.name, sg.appid)) = [("Portal 2", 620)]
    ∧ findBySteamId dbPortal 620 = none
    ∧ (search envPortal2 dbPortal "Portal").map (fun r => r.db.games.map gameKey)
        = some [(1, "Portal", 400)] := by
  decide

/-- C1 (amended): for every item the lookup client returns, the search
handler updates the price of an existing Game row with matching
external_id; a new Game row with the item's name, external_id and price is
inserted only in the branch where step 1 found no local rows, and only
when the item's name does not equal the name of a row already in the
table — such a duplicate name violates the UNIQUE constraint on Game.name
and the unhandled IntegrityError aborts the whole request with nothing
persisted and nothing rendered. In the branch where step 1 found rows, an
item with no matching external_id is skipped and the Game table keeps
exactly its original rows (ids, names and steam_ids unchanged). -/
theorem claim_C1_amended_upsert :
    ∀ (env : LookupEnv) (db : DB) (q : String) (sg : SteamGame)
      (acc : DB × List Nat),
      (findByName db q ≠ [] →
        search env db q
          = some ⟨refreshPrices db (get_steam_price_by_name env q).1,
              (findByName db q).map Game.id⟩)
      ∧ (findByName db q = [] →
          (∀ r, upsertAll db (get_steam_price_by_name env q).1 = some r →
            search env db q = some ⟨r.1, r.2⟩)
          ∧ (upsertAll db (get_steam_price_by_name env q).1 = none →
            search env db q = none))
      ∧ (∀ sgs : List SteamGame,
          (refreshPrices db sgs).games.map gameKey = db.games.map gameKey)
      ∧ (∀ g, findBySteamId db sg.appid = some g →
          updateExistingPrice db sg
            = { db with games := setPriceById db.games g.id sg.price }
          ∧ ({ g with price := sg.price } : Game) ∈ (updateExistingPrice db sg).games)
      ∧ (findBySteamId db sg.appid = none → updateExistingPrice db sg = db)
      ∧ (∀ g, findBySteamId acc.1 sg.appid = some g →
          upsertStep acc sg
            = some ({ acc.1 with games := setPriceById acc.1.games g.id sg.price },
                acc.2))
      ∧ (findBySteamId acc.1 sg.appid = none →
          acc.1.games.any (fun g => g.name == sg.name) = false →
          upsertStep acc sg
            = some ({ acc.1 with
                  games := acc.1.games
                    ++ [⟨acc.1.nextGameId, sg.name, sg.appid, sg.price⟩],
                  nextGameId := acc.1.nextGameId + 1 },
                acc.2 ++ [acc.1.nextGameId]))
      ∧ (findBySteamId acc.1 sg.appid = none →
          acc.1.games.any (fun g => g.name == sg.name) = true →
          upsertStep acc sg = none)
      ∧ search envHalfLife dbHalfLife "Half Life" = none := by
  intro env db q sg acc
  refine ⟨fun h => search_found env db q h, ?_,
    fun sgs => refreshPrices_map_gameKey sgs db, ?_,
    fun h => by simp [updateExistingPrice, h],
    fun g h => upsertStep_matched acc sg g h,
    fun h hname => upsertStep_unmatched acc sg h hname,
    fun h hname => upsertStep_name_collision acc sg h hname,
    by decide⟩
  · intro h1
    exact ⟨fun r hr => search_empty_some env db q r h1 hr,
      fun hr => search_empty_crash env db q h1 hr⟩
  · intro g h
    have he : updateExistingPrice db sg
        = { db with games := setPriceById db.games g.id sg.price } := by
      simp [updateExistingPrice, h]
    refine ⟨he, ?_⟩
    rw [he]
    have hm : g ∈ db.games := List.mem_of_find?_eq_some h
    have : ({ g with price := sg.price } : Game)
        = (fun x => if x.id == g.id then { x with price := sg.price } else x) g := by
      simp
    rw [this]
    exact List.mem_map_of_mem _ hm

/-- C2: response selection of the search handler, for every request that
does produce a response (a name-colliding insert instead aborts the
request with an unhandled IntegrityError and renders nothing): if the
step-1 case-insensitive name query found rows, the response shows exactly
those rows (their ids), whatever the refresh did; if it found nothing, the
response shows exactly the ids of the rows the upsert loop appended to the
Game table (none of the rows that were merely price-updated); if it found
nothing and the lookup yielded nothing usable, the response is the empty
list. -/
theorem claim_C2_response_selection :
    ∀ (env : LookupEnv) (db : DB) (q : String),
      (findByName db q ≠ [] →
        ∀ res, search env db q = some res →
          res.shownIds = (findByName db q).map Game.id)
      ∧ (findByName db q = [] →
          ∀ res, search env db q = some res →
            ∃ newIds,
              res.shownIds = newIds
              ∧ res.db.games.map Game.id = db.games.map Game.id ++ newIds)
      ∧ (findByName db q = [] → (get_steam_price_by_name env q).1 = [] →
          search env db q = some ⟨db, []⟩) := by
  intro env db q
  refine ⟨?_, ?_, fun h1 h2 => search_empty_none env db q h1 h2⟩
  · intro h res hres
    rw [search_found env db q h] at hres
    cases hres
    rfl
  · intro h1 res hres
    rcases hr : upsertAll db (get_steam_price_by_name env q).1 with _ | r
    · by_cases h2 : (get_steam_price_by_name env q).1 = []
      · rw [search_empty_none env db q h1 h2] at hres
        cases hres
        exact ⟨[], rfl, by simp⟩
      · rw [search_empty_crash env db q h1 hr] at hres
        cases hres
    · rw [search_empty_some env db q r h1 hr] at hres
      cases hres
      obtain ⟨n, hm, hs⟩ := upsertLoop_ids (get_steam_price_by_name env q).1 (db, []) r hr
      exact ⟨n, by simpa using hs, by simpa using hm⟩

/-- C5: on a transport-level failure of the storefront search call, the
lookup client returns the empty list and logs the error with the original
query, and the search handler does not crash (it renders a response): it
leaves the store untouched and renders the pre-existing local matches
(possibly the empty list). -/
theorem claim_C5_search_transport_failure :
    ∀ (env : LookupEnv) (db : DB) (q : String),
      env.searchOutcome = .transportFailure →
        get_steam_price_by_name env q = ([], [.apiRequestError q])
        ∧ search env db q = some ⟨db, (findByName db q).map Game.id⟩ := by
  intro env db q h
  have hg : get_steam_price_by_name env q = ([], [.apiRequestError q]) := by
    simp [get_steam_price_by_name, h]
  refine ⟨hg, ?_⟩
  by_cases he : findByName db q = []
  · rw [search_empty_none env db q he (by rw [hg]), he]
    rfl
  · rw [search_found env db q he, hg]
    rfl

/-- C5 witness: the failure policy at a concrete store and query: the store
holds one Game row matching Portal, the network is down, the client yields
the empty list plus the logged error, and the handler renders the
pre-existing match with the store unchanged. -/
theorem claim_C5_witness :
    get_steam_price_by_name envDown "Portal" = ([], [.apiRequestError "Portal"])
    ∧ search envDown dbPortal "Portal"
        = some ⟨dbPortal, (findByName dbPortal "Portal").map Game.id⟩ :=
  claim_C5_search_transport_failure envDown dbPortal "Portal" rfl

/-- C6: a failing details call excludes only its own candidate: for a
surviving candidate whose details call fails at transport level, the result
list is exactly the one computed without that candidate and the log gains
the priceFetchError event naming its external id; for one whose details
call succeeds without price data, result and log are exactly those computed
without that candidate; the surrounding candidates are processed either
way. -/
theorem claim_C6_details_failure :
    ∀ (details : Nat → DetailsOutcome) (q : String) (pre post : List SearchItem)
      (item : SearchItem),
      keepCandidate q item.name = true →
        (details item.id = .transportFailure →
          processItems details q (pre ++ item :: post)
            = ((processItems details q (pre ++ post)).1,
               (processItems details q pre).2
                 ++ LogEvent.priceFetchError item.id
                    :: (processItems details q post).2))
        ∧ (details item.id = .success none →
          processItems details q (pre ++ item :: post)
            = processItems details q (pre ++ post)) := by
  intro details q pre post item hk
  constructor
  · intro hd
    rw [processItems_append details q pre (item :: post),
        processItems_append details q pre post]
    have hone : processItems details q (item :: post)
        = ((processItems details q post).1,
           LogEvent.priceFetchError item.id :: (processItems details q post).2) := by
      simp [processItems, hk, fetch_price_data, hd]
    rw [hone]
  · intro hd
    rw [processItems_append details q pre (item :: post),
        processItems_append details q pre post]
    have hone : processItems details q (item :: post)
        = processItems details q post := by
      simp [processItems, hk, fetch_price_data, hd]
    rw [hone]

/-- C6 witness: the per-item failure policy at a concrete input: the
candidate Portal 2 (app id 620, details call down in detailsMixed) passes
the word filter for the query Portal and is dropped alone, logging its app
id. -/
theorem claim_C6_witness :
    (detailsMixed 620 = .transportFailure →
      processItems detailsMixed "Portal" ([] ++ (⟨"Portal 2", 620⟩ : SearchItem) :: [])
        = ((processItems detailsMixed "Portal" ([] ++ [])).1,
           (processItems detailsMixed "Portal" []).2
             ++ LogEvent.priceFetchError 620
                :: (processItems detailsMixed "Portal" []).2))
    ∧ (detailsMixed 620 = .success none →
      processItems detailsMixed "Portal" ([] ++ (⟨"Portal 2", 620⟩ : SearchItem) :: [])
        = processItems detailsMixed "Portal" ([] ++ [])) :=
  claim_C6_details_failure detailsMixed "Portal" [] [] ⟨"Portal 2", 620⟩ (by decide)

/-- C7: add-to-wishlist is idempotent for a fixed game_id: running the
handler twice in sequence equals running it once, and when the game exists
and the store satisfies the at-most-one-entry-per-game invariant, two
sequential adds leave exactly one Wishlist row referencing that game_id. -/
theorem claim_C7_add_idempotent :
    ∀ (db : DB) (gid : Nat) (tp1 tp2 : Option ℚ),
      add_to_wishlist (add_to_wishlist db gid tp1) gid tp2
        = add_to_wishlist db gid tp1
      ∧ (∀ g, getGame db gid = some g →
          db.wishlist.countP (fun w => w.game_id == gid) ≤ 1 →
          ((add_to_wishlist (add_to_wishlist db gid tp1) gid tp2).wishlist.countP
              (fun w => w.game_id == gid)) = 1) := by
  intro db gid tp1 tp2
  refine ⟨add_to_wishlist_idem db gid tp1 tp2, ?_⟩
  intro g hg hc
  rw [add_to_wishlist_idem db gid tp1 tp2]
  exact add_to_wishlist_count_one db gid tp1 g hg hc

/-- C7 witness: two sequential adds of game 7 to an empty wishlist leave
exactly one row referencing game 7. -/
theorem claim_C7_witness :
    ((add_to_wishlist (add_to_wishlist dbOneGame 7 (some 5)) 7 (some 6)).wishlist.countP
        (fun w => w.game_id == 7)) = 1 :=
  (claim_C7_add_idempotent dbOneGame 7 (some 5) (some 6)).2
    ⟨7, "Portal", 400, 999/100⟩ rfl (by decide)

/-- C8: the delete handler: a non-existent wishlist id produces the
not-found danger notice and removes nothing; an existing id whose entry
references an existing game removes exactly the rows with that id (exactly
one row when ids are distinct, and no Game row and no other Wishlist row)
and produces a success notice naming the game. -/
theorem claim_C8_delete_spec :
    ∀ (db : DB) (wid : Nat),
      (getWishlistEntry db wid = none →
        delete_from_wishlist db wid = some ⟨db, some .wishlistItemNotFound⟩)
      ∧ (∀ item game, getWishlistEntry db wid = some item →
          getGame db item.game_id = some game →
            delete_from_wishlist db wid
              = some ⟨{ db with
                    wishlist := db.wishlist.filter (fun w => !(w.id == wid)) },
                  some (.removedFromWishlist game.name)⟩
            ∧ item ∈ db.wishlist ∧ item.id = wid
            ∧ (∀ w ∈ db.wishlist, w.id ≠ wid →
                w ∈ db.wishlist.filter (fun w => !(w.id == wid)))
            ∧ ((db.wishlist.map WishlistEntry.id).Nodup →
                db.wishlist.filter (fun w => w.id == wid) = [item]))
      ∧ Flash.category .wishlistItemNotFound = .danger
      ∧ (∀ s, Flash.category (.removedFromWishlist s) = .success) := by
  intro db wid
  refine ⟨?_, ?_, rfl, fun s => rfl⟩
  · intro h
    simp [delete_from_wishlist, h]
  · intro item game hi hg
    have hidw : item.id = wid := by simpa using List.find?_some hi
    refine ⟨by simp [delete_from_wishlist, hi, hg],
      List.mem_of_find?_eq_some hi, hidw, ?_, ?_⟩
    · intro w hw hne
      rw [List.mem_filter]
      exact ⟨hw, by simpa using hne⟩
    · intro hn
      rw [← hidw]
      exact filter_id_of_nodup db.wishlist item hn (List.mem_of_find?_eq_some hi)

/-- C8 witness: deleting the one existing wishlist row (id 3, game Portal)
at a concrete store removes it and flashes the success notice naming
Portal. -/
theorem claim_C8_witness :
    delete_from_wishlist dbOneWish 3
      = some ⟨{ dbOneWish with
            wishlist := dbOneWish.wishlist.filter (fun w => !(w.id == 3)) },
          some (.removedFromWishlist "Portal")⟩ :=
  ((claim_C8_delete_spec dbOneWish 3).2.1 ⟨3, 7, some 5⟩
    ⟨7, "Portal", 400, 999/100⟩ rfl rfl).1

end BestPrice
